import Mathlib

/-
Verification of read_aod_and_calculate_pm25.py (NASAARSET/MODIS_Aerosols).

The script reads a list of MODIS HDF filenames, and for each file: asks the
user whether to process it, resolves the SDS variable name from the filename,
opens the file, selects the SDS with a fallback, computes range-filtered
statistics, converts the full AOD grid to PM2.5 by a linear transform, and
classifies the PM2.5 grid into AQI categories for mapping.

Modelling conventions of this shallow embedding:
- Python floats are modelled as rationals.  All numeric literals of the
  script (12, 35.4, 55.4, 150.4, 250.4, 29.4, 8.8, 0.001) are exact decimal
  fractions, so the comparisons and linear arithmetic of the script are
  represented exactly.
- A 2-D numpy array is a list of rows; elementwise numpy operations are maps,
  boolean-mask assignments are elementwise conditionals applied to the whole
  array, one mask after the other, in source order.
- np.nan cells are represented with Option: none is NaN.
- Fallible arithmetic (the ZeroDivisionError on an empty mean) is an Option
  result: none is the raised, propagated error.
- The interactive loop is a function from the optional file-list content
  (none: the file is absent) and per-file environment records (user response,
  openability, available SDS names) to per-file outcomes.
-/

namespace ModisAerosols

/-- Contiguous-substring test on character lists, mirroring the Python
expression pat in FILE_NAME used on filenames at lines 51 and 54. -/
def hasSubstr (pat : List Char) : List Char → Bool
  | [] => pat.isEmpty
  | c :: rest => pat.isPrefixOf (c :: rest) || hasSubstr pat rest

/-- Lines 51-59: SDS variable name chosen from the filename.  A name
containing the substring 3K resolves (first) to Optical_Depth_Land_And_Ocean;
otherwise a name containing L2 resolves to
AOD_550_Dark_Target_Deep_Blue_Combined; otherwise none (the file is skipped
with a diagnostic). -/
def resolveSDS (name : List Char) : Option String :=
  if hasSubstr ("3K".toList) name then some ("Optical_Depth_Land_And_Ocean")
  else if hasSubstr ("L2".toList) name then some ("AOD_550_Dark_Target_Deep_Blue_Combined")
  else none

/-- Lines 78-85: select the resolved SDS from the names available in the
opened file, falling back to Optical_Depth_Land_And_Ocean; none means the
file is skipped with a diagnostic. -/
def selectSDS (avail : List String) (resolved : String) : Option String :=
  if resolved ∈ avail then some resolved
  else if ("Optical_Depth_Land_And_Ocean") ∈ avail then some ("Optical_Depth_Land_And_Ocean")
  else none

/-- Line 48: the file is processed unless the response is exactly N or n. -/
def processDecision (r : String) : Bool := !(r == "N" || r == "n")

/-- Line 114: custom slope and intercept are used only when the response is
exactly Y or y. -/
def useCustomCoeffs (r : String) : Bool := r == "Y" || r == "y"

/-- Line 129: the map is created only when the response is exactly Y or y. -/
def showMapDecision (r : String) : Bool := r == "Y" || r == "y"

/-- Line 175: the map is saved only when the response is exactly Y or y. -/
def saveMapDecision (r : String) : Bool := r == "Y" || r == "y"

/-- Lines 113-120: the conversion coefficients actually used, given the
response to the coefficients prompt and the values the user would type. -/
def slopeIntercept (r : String) (userSlope userIntercept : ℚ) : ℚ × ℚ :=
  if useCustomCoeffs r then (userSlope, userIntercept) else (29.4, 8.8)

/-- Line 97: data.ravel() flattens the 2-D array row by row. -/
def ravel (g : List (List ℚ)) : List ℚ := g.flatten

/-- Lines 97-102: the statistics population.  Flatten, keep elements at least
min_range, then keep elements at most max_range, then multiply each element
by scale_factor. -/
def valid_data (g : List (List ℚ)) (min_range max_range scale_factor : ℚ) : List ℚ :=
  (((ravel g).filter (fun x => decide (min_range ≤ x))).filter
      (fun x => decide (x ≤ max_range))).map (fun x => x * scale_factor)

/-- Line 104: average = sum(valid_data)/len(valid_data).  On an empty
population Python raises ZeroDivisionError; that raised error is none. -/
def average (g : List (List ℚ)) (min_range max_range scale_factor : ℚ) : Option ℚ :=
  if (valid_data g min_range max_range scale_factor).length = 0 then none
  else some ((valid_data g min_range max_range scale_factor).sum /
    ((valid_data g min_range max_range scale_factor).length : ℚ))

/-- Line 106: np.std(valid_data) with the default ddof = 0 is the population
standard deviation, the square root of the mean of squared deviations.  The
square root of a rational need not be rational, so the embedding carries the
squared value; the reported stdev is its (nonnegative) square root, and a
nonnegative real is determined by its square.  On an empty population np.std
yields NaN, which is none. -/
def stdevSq (g : List (List ℚ)) (min_range max_range scale_factor : ℚ) : Option ℚ :=
  if (valid_data g min_range max_range scale_factor).length = 0 then none
  else some
    (((valid_data g min_range max_range scale_factor).map (fun x =>
        (x - (valid_data g min_range max_range scale_factor).sum /
          ((valid_data g min_range max_range scale_factor).length : ℚ)) ^ 2)).sum /
      ((valid_data g min_range max_range scale_factor).length : ℚ))

/-- Lines 121-122: valid_data = data*scale_factor re-binds the name to the
FULL unfiltered grid scaled, and pm25 = float(slope)*that + float(intercept).
The range filter plays no part here; the function does not even take the
valid range as an argument. -/
def pm25 (data : List (List ℚ)) (scale_factor slope intercept : ℚ) : List (List ℚ) :=
  data.map (fun row => row.map (fun v => slope * (v * scale_factor) + intercept))

/-- Line 133: data[np.logical_and(data>=0,data <= 12)]=0, as the elementwise
update it performs. -/
def step1 (v : ℚ) : ℚ := if 0 ≤ v ∧ v ≤ 12 then 0 else v

/-- Line 134: data[np.logical_and(data>12,data <= 35.4)]=1. -/
def step2 (v : ℚ) : ℚ := if 12 < v ∧ v ≤ 35.4 then 1 else v

/-- Line 135: data[np.logical_and(data>35.4,data <= 55.4)]=2. -/
def step3 (v : ℚ) : ℚ := if 35.4 < v ∧ v ≤ 55.4 then 2 else v

/-- Line 136: data[np.logical_and(data>55.4,data <= 150.4)]=3. -/
def step4 (v : ℚ) : ℚ := if 55.4 < v ∧ v ≤ 150.4 then 3 else v

/-- Line 137: data[np.logical_and(data>150.4,data <= 250.4)]=4. -/
def step5 (v : ℚ) : ℚ := if 150.4 < v ∧ v ≤ 250.4 then 4 else v

/-- Line 138: data[data>250.4]=5. -/
def step6 (v : ℚ) : ℚ := if 250.4 < v then 5 else v

/-- Line 139: data[data < 0] = np.nan; a NaN cell is none. -/
def step7 (v : ℚ) : Option ℚ := if v < 0 then none else some v

/-- The seven in-place updates of lines 133-139 read at a single cell, in
source order. -/
def classifySeqCell (v : ℚ) : Option ℚ :=
  step7 (step6 (step5 (step4 (step3 (step2 (step1 v))))))

/-- One boolean-mask assignment applied to the whole 2-D array. -/
def applyAll (f : ℚ → ℚ) (g : List (List ℚ)) : List (List ℚ) :=
  g.map (fun row => row.map f)

/-- Lines 132-139 as the source performs them: each mask assignment is applied
to the whole array before the next one runs. -/
def classifyGridSeq (g : List (List ℚ)) : List (List (Option ℚ)) :=
  (applyAll step6 (applyAll step5 (applyAll step4 (applyAll step3 (applyAll step2
    (applyAll step1 g)))))).map (fun row => row.map step7)

/-- The pure per-element bucketing function: each threshold rule is tested on
the original cell value, first match wins.  This is the elementwise
description the spec gives of the classifier; the sequential source code is
compared against it. -/
def classifyPure (v : ℚ) : Option ℚ :=
  if 0 ≤ v ∧ v ≤ 12 then some 0
  else if 12 < v ∧ v ≤ 35.4 then some 1
  else if 35.4 < v ∧ v ≤ 55.4 then some 2
  else if 55.4 < v ∧ v ≤ 150.4 then some 3
  else if 150.4 < v ∧ v ≤ 250.4 then some 4
  else if 250.4 < v then some 5
  else none

/-- The AQI category grid the map displays: the classifier of lines 132-139
applied to the pm25 grid of lines 121-122. -/
def categoryGrid (data : List (List ℚ)) (scale_factor slope intercept : ℚ) :
    List (List (Option ℚ)) :=
  classifyGridSeq (pm25 data scale_factor slope intercept)

/-- The filtered-scaled multiset exactly as the spec phrases it: the elements
e of the flattened array with min_range ≤ e ≤ max_range, each scaled by
scale_factor. -/
def specFilteredScaled (g : List (List ℚ)) (min_range max_range scale_factor : ℚ) : List ℚ :=
  ((ravel g).filter (fun e => decide (min_range ≤ e ∧ e ≤ max_range))).map
    (fun e => e * scale_factor)

/-- Per-file environment of one loop iteration: the stripped filename, the
response to the process prompt, whether SD.SD(FILE_NAME) succeeds, and the
SDS names present in the opened file. -/
structure FileEntry where
  name : List Char
  processResp : String
  openable : Bool
  sdsAvailable : List String

/-- How one loop iteration (lines 45-85) ends before the numeric stage. -/
inductive Outcome where
  | declined : Outcome
  | badName : Outcome
  | openFailed : Outcome
  | noSDS : Outcome
  | processed : String → Outcome
deriving DecidableEq

/-- One iteration of the loop of lines 45-85 in source order: process prompt,
filename-based SDS resolution, file open, SDS selection with fallback. -/
def processOne (f : FileEntry) : Outcome :=
  if processDecision f.processResp = false then Outcome.declined
  else
    match resolveSDS f.name with
    | none => Outcome.badName
    | some sds =>
      if f.openable = false then Outcome.openFailed
      else
        match selectSDS f.sdsAvailable sds with
        | none => Outcome.noSDS
        | some s => Outcome.processed s

/-- Result of the whole run: lines 35-39 abort with sys.exit when
fileList.txt cannot be opened, otherwise every listed file gets exactly one
loop iteration. -/
inductive RunResult where
  | fatal : RunResult
  | done : List Outcome → RunResult
deriving DecidableEq

/-- Lines 35-45: the run, as a function of the optional file-list content;
none means fileList.txt is absent. -/
def run (fileList : Option (List FileEntry)) : RunResult :=
  match fileList with
  | none => RunResult.fatal
  | some fs => RunResult.done (fs.map processOne)

/-! Helper lemmas shared by the claim theorems. -/

/-- The seven sequential in-place updates, read at one cell, compute the pure
first-match bucketing of the original value: a code written by an earlier
rule never satisfies a later rule, so no cell is reassigned. -/
theorem classifySeqCell_eq_pure (v : ℚ) : classifySeqCell v = classifyPure v := by
  unfold classifySeqCell classifyPure step1 step2 step3 step4 step5 step6 step7
  by_cases h1 : 0 ≤ v ∧ v ≤ 12
  · simp only [if_pos h1]; norm_num
  · by_cases h2 : 12 < v ∧ v ≤ 35.4
    · simp only [if_neg h1, if_pos h2]; norm_num
    · by_cases h3 : 35.4 < v ∧ v ≤ 55.4
      · simp only [if_neg h1, if_neg h2, if_pos h3]; norm_num
      · by_cases h4 : 55.4 < v ∧ v ≤ 150.4
        · simp only [if_neg h1, if_neg h2, if_neg h3, if_pos h4]; norm_num
        · by_cases h5 : 150.4 < v ∧ v ≤ 250.4
          · simp only [if_neg h1, if_neg h2, if_neg h3, if_neg h4, if_pos h5]; norm_num
          · by_cases h6 : 250.4 < v
            · simp only [if_neg h1, if_neg h2, if_neg h3, if_neg h4, if_neg h5, if_pos h6]
              norm_num
            · have hv : v < 0 := by
                by_contra hge
                push_neg at hge h6
                have a1 : 12 < v := by
                  by_contra a; push_neg at a; exact h1 ⟨hge, a⟩
                have a2 : (35.4 : ℚ) < v := by
                  by_contra a; push_neg at a; exact h2 ⟨a1, a⟩
                have a3 : (55.4 : ℚ) < v := by
                  by_contra a; push_neg at a; exact h3 ⟨a2, a⟩
                have a4 : (150.4 : ℚ) < v := by
                  by_contra a; push_neg at a; exact h4 ⟨a3, a⟩
                have a5 : (250.4 : ℚ) < v := by
                  by_contra a; push_neg at a; exact h5 ⟨a4, a⟩
                linarith
              simp only [if_neg h1, if_neg h2, if_neg h3, if_neg h4, if_neg h5, if_neg h6,
                if_pos hv]

/-- Negative values bucket to NaN. -/
theorem classifyPure_neg {v : ℚ} (h : v < 0) : classifyPure v = none := by
  unfold classifyPure
  rw [if_neg (fun hc => by linarith [hc.1]), if_neg (fun hc => by linarith [hc.1]),
    if_neg (fun hc => by linarith [hc.1]), if_neg (fun hc => by linarith [hc.1]),
    if_neg (fun hc => by linarith [hc.1]), if_neg (fun hc => by linarith [hc])]

/-- First bin. -/
theorem classifyPure_bin0 {v : ℚ} (h0 : 0 ≤ v) (h1 : v ≤ 12) : classifyPure v = some 0 := by
  unfold classifyPure
  rw [if_pos ⟨h0, h1⟩]

/-- Second bin. -/
theorem classifyPure_bin1 {v : ℚ} (h0 : 12 < v) (h1 : v ≤ 35.4) : classifyPure v = some 1 := by
  unfold classifyPure
  rw [if_neg (fun hc => by linarith [hc.2]), if_pos ⟨h0, h1⟩]

/-- Third bin. -/
theorem classifyPure_bin2 {v : ℚ} (h0 : 35.4 < v) (h1 : v ≤ 55.4) : classifyPure v = some 2 := by
  unfold classifyPure
  rw [if_neg (fun hc => by linarith [hc.2]), if_neg (fun hc => by linarith [hc.2]),
    if_pos ⟨h0, h1⟩]

/-- Fourth bin. -/
theorem classifyPure_bin3 {v : ℚ} (h0 : 55.4 < v) (h1 : v ≤ 150.4) : classifyPure v = some 3 := by
  unfold classifyPure
  rw [if_neg (fun hc => by linarith [hc.2]), if_neg (fun hc => by linarith [hc.2]),
    if_neg (fun hc => by linarith [hc.2]), if_pos ⟨h0, h1⟩]

/-- Fifth bin. -/
theorem classifyPure_bin4 {v : ℚ} (h0 : 150.4 < v) (h1 : v ≤ 250.4) : classifyPure v = some 4 := by
  unfold classifyPure
  rw [if_neg (fun hc => by linarith [hc.2]), if_neg (fun hc => by linarith [hc.2]),
    if_neg (fun hc => by linarith [hc.2]), if_neg (fun hc => by linarith [hc.2]),
    if_pos ⟨h0, h1⟩]

/-- Sixth bin. -/
theorem classifyPure_bin5 {v : ℚ} (h0 : 250.4 < v) : classifyPure v = some 5 := by
  unfold classifyPure
  rw [if_neg (fun hc => by linarith [hc.2]), if_neg (fun hc => by linarith [hc.2]),
    if_neg (fun hc => by linarith [hc.2]), if_neg (fun hc => by linarith [hc.2]),
    if_neg (fun hc => by linarith [hc.2]), if_pos h0]

/-- A cell buckets to NaN exactly when its value is negative. -/
theorem classifyPure_none_iff (v : ℚ) : classifyPure v = none ↔ v < 0 := by
  constructor
  · intro h
    by_contra hge
    push_neg at hge
    by_cases h1 : v ≤ 12
    · rw [classifyPure_bin0 hge h1] at h; exact Option.noConfusion h
    · push_neg at h1
      by_cases h2 : v ≤ 35.4
      · rw [classifyPure_bin1 h1 h2] at h; exact Option.noConfusion h
      · push_neg at h2
        by_cases h3 : v ≤ 55.4
        · rw [classifyPure_bin2 h2 h3] at h; exact Option.noConfusion h
        · push_neg at h3
          by_cases h4 : v ≤ 150.4
          · rw [classifyPure_bin3 h3 h4] at h; exact Option.noConfusion h
          · push_neg at h4
            by_cases h5 : v ≤ 250.4
            · rw [classifyPure_bin4 h4 h5] at h; exact Option.noConfusion h
            · push_neg at h5
              rw [classifyPure_bin5 h5] at h; exact Option.noConfusion h
  · exact classifyPure_neg

/-- The whole-array sequential masking equals the elementwise map of the pure
bucketing over the original array. -/
theorem classifyGridSeq_eq_pure (g : List (List ℚ)) :
    classifyGridSeq g = g.map (fun row => row.map classifyPure) := by
  unfold classifyGridSeq applyAll
  simp only [List.map_map]
  refine List.map_congr_left (fun row _ => ?_)
  simp only [Function.comp, List.map_map]
  refine List.map_congr_left (fun v _ => ?_)
  simpa [classifySeqCell, Function.comp] using classifySeqCell_eq_pure v

/-- Two successive filters against the range bounds keep exactly the elements
of the closed interval. -/
theorem filter_ge_le_eq (l : List ℚ) (lo hi : ℚ) :
    (l.filter (fun x => decide (lo ≤ x))).filter (fun x => decide (x ≤ hi)) =
      l.filter (fun e => decide (lo ≤ e ∧ e ≤ hi)) := by
  induction l with
  | nil => rfl
  | cons x xs ih =>
    by_cases hp : lo ≤ x <;> by_cases hq : x ≤ hi <;>
      simp [List.filter, hp, hq, ih]

/-- The statistics population of the source equals the single-pass
filtered-scaled multiset of the spec. -/
theorem valid_data_eq_spec (g : List (List ℚ)) (lo hi s : ℚ) :
    valid_data g lo hi s = specFilteredScaled g lo hi s := by
  unfold valid_data specFilteredScaled
  rw [filter_ge_le_eq]

/-! Claim theorems. -/

/-- Claim C1, counterexample to the claim as stated.  The claim pairs 11
inputs with 12 outputs respectively; under positional pairing the ninth
input 150.41 is claimed to yield 3, but the classifier yields 4 (the output
list has an entry for the input 55.41, which is missing from the input
list). -/
theorem C1_claimed_vector_false :
    classifySeqCell 150.41 ≠ some 3 ∧ classifySeqCell 150.41 = some 4 := by
  constructor
  · norm_num [classifySeqCell, step1, step2, step3, step4, step5, step6, step7]
  · norm_num [classifySeqCell, step1, step2, step3, step4, step5, step6, step7]

/-- Claim C1 (amended): the classifier maps every value into the six fixed
ordered bins with boundaries belonging to the lower category, negative
values to NaN; and on the corrected test vector (inserting the missing input
55.41) the 12 inputs -1, 0, 12, 12.0001, 35.4, 35.41, 55.4, 55.41, 150.4,
150.41, 250.4, 250.41 yield NaN, 0, 0, 1, 1, 2, 2, 3, 3, 4, 4, 5
respectively. -/
theorem C1_classifier_bins_and_vector (x : ℚ) :
    (x < 0 → classifySeqCell x = none) ∧
    (0 ≤ x → x ≤ 12 → classifySeqCell x = some 0) ∧
    (12 < x → x ≤ 35.4 → classifySeqCell x = some 1) ∧
    (35.4 < x → x ≤ 55.4 → classifySeqCell x = some 2) ∧
    (55.4 < x → x ≤ 150.4 → classifySeqCell x = some 3) ∧
    (150.4 < x → x ≤ 250.4 → classifySeqCell x = some 4) ∧
    (250.4 < x → classifySeqCell x = some 5) ∧
    classifySeqCell (-1) = none ∧
    classifySeqCell 0 = some 0 ∧
    classifySeqCell 12 = some 0 ∧
    classifySeqCell 12.0001 = some 1 ∧
    classifySeqCell 35.4 = some 1 ∧
    classifySeqCell 35.41 = some 2 ∧
    classifySeqCell 55.4 = some 2 ∧
    classifySeqCell 55.41 = some 3 ∧
    classifySeqCell 150.4 = some 3 ∧
    classifySeqCell 150.41 = some 4 ∧
    classifySeqCell 250.4 = some 4 ∧
    classifySeqCell 250.41 = some 5 := by
  refine ⟨fun h => ?_, fun h0 h1 => ?_, fun h0 h1 => ?_, fun h0 h1 => ?_, fun h0 h1 => ?_,
    fun h0 h1 => ?_, fun h0 => ?_, ?_, ?_, ?_, ?_, ?_, ?_, ?_, ?_, ?_, ?_, ?_, ?_⟩
  · rw [classifySeqCell_eq_pure]; exact classifyPure_neg h
  · rw [classifySeqCell_eq_pure]; exact classifyPure_bin0 h0 h1
  · rw [classifySeqCell_eq_pure]; exact classifyPure_bin1 h0 h1
  · rw [classifySeqCell_eq_pure]; exact classifyPure_bin2 h0 h1
  · rw [classifySeqCell_eq_pure]; exact classifyPure_bin3 h0 h1
  · rw [classifySeqCell_eq_pure]; exact classifyPure_bin4 h0 h1
  · rw [classifySeqCell_eq_pure]; exact classifyPure_bin5 h0
  all_goals norm_num [classifySeqCell, step1, step2, step3, step4, step5, step6, step7]

/-- Claim C1, witness: the bin theorem applied at the concrete input 200,
whose hypotheses hold. -/
theorem C1_classifier_bins_and_vector_witness :
    (150.4 : ℚ) < 200 ∧ (200 : ℚ) ≤ 250.4 ∧ classifySeqCell 200 = some 4 :=
  ⟨by norm_num, by norm_num,
    (C1_classifier_bins_and_vector 200).2.2.2.2.2.1 (by norm_num) (by norm_num)⟩

/-- Claim C2: the two successive filters of lines 98-99 retain exactly the
elements within the closed interval, and the reported mean and squared
population standard deviation are the closed-form expressions over exactly
the filtered, scaled multiset. -/
theorem C2_statistics_population (g : List (List ℚ)) (lo hi s : ℚ) :
    valid_data g lo hi s = specFilteredScaled g lo hi s ∧
    (valid_data g lo hi s ≠ [] →
      average g lo hi s =
        some ((specFilteredScaled g lo hi s).sum /
          ((specFilteredScaled g lo hi s).length : ℚ))) ∧
    (valid_data g lo hi s ≠ [] →
      stdevSq g lo hi s =
        some (((specFilteredScaled g lo hi s).map (fun x =>
            (x - (specFilteredScaled g lo hi s).sum /
              ((specFilteredScaled g lo hi s).length : ℚ)) ^ 2)).sum /
          ((specFilteredScaled g lo hi s).length : ℚ))) := by
  have he := valid_data_eq_spec g lo hi s
  refine ⟨he, fun hne => ?_, fun hne => ?_⟩
  · rw [he] at hne
    unfold average
    rw [he, if_neg (fun h0 => hne (List.length_eq_zero.mp h0))]
  · rw [he] at hne
    unfold stdevSq
    rw [he, if_neg (fun h0 => hne (List.length_eq_zero.mp h0))]

/-- Claim C2, witness: the statistics theorem applied to a concrete grid with
a nonempty filtered set. -/
theorem C2_statistics_population_witness :
    valid_data [[1, 2], [3]] 1 2 2 ≠ [] ∧
    average [[1, 2], [3]] 1 2 2 =
      some ((specFilteredScaled [[1, 2], [3]] 1 2 2).sum /
        ((specFilteredScaled [[1, 2], [3]] 1 2 2).length : ℚ)) :=
  ⟨by decide, (C2_statistics_population [[1, 2], [3]] 1 2 2).2.1 (by decide)⟩

/-- Claim C3: the pm25 grid of lines 121-122 is computed over the full
unfiltered raw grid, cell by cell as slope * (raw * scale_factor) +
intercept, preserving the shape; the valid range is not an input of this
computation at all, so its population is the whole grid rather than the
filtered statistics population. -/
theorem C3_pm25_full_grid (data : List (List ℚ)) (s sl it : ℚ) :
    (pm25 data s sl it).length = data.length ∧
    (∀ (i : ℕ) (row : List ℚ), data[i]? = some row →
      (pm25 data s sl it)[i]? = some (row.map (fun v => sl * (v * s) + it))) ∧
    (∀ (i j : ℕ) (row : List ℚ) (v : ℚ), data[i]? = some row → row[j]? = some v →
      ∃ prow : List ℚ, (pm25 data s sl it)[i]? = some prow ∧
        prow[j]? = some (sl * (v * s) + it)) := by
  refine ⟨by simp [pm25], fun i row h => ?_, fun i j row v h1 h2 => ?_⟩
  · simp [pm25, List.getElem?_map, h]
  · exact ⟨row.map (fun v => sl * (v * s) + it),
      by simp [pm25, List.getElem?_map, h1],
      by simp [List.getElem?_map, h2]⟩

/-- Claim C3, witness: the grid theorem applied at a concrete one-cell
grid. -/
theorem C3_pm25_full_grid_witness :
    ∃ prow : List ℚ, (pm25 [[(1000 : ℚ)]] 0.001 29.4 8.8)[0]? = some prow ∧
      prow[0]? = some ((29.4 : ℚ) * (1000 * 0.001) + 8.8) :=
  (C3_pm25_full_grid [[(1000 : ℚ)]] 0.001 29.4 8.8).2.2 0 0 [1000] 1000 rfl rfl

/-- Claim C4: when the valid-range filter retains zero elements the mean
computation is the raised, propagated division-by-zero failure (none), and
it is never silently coerced: a defined value exists exactly when the
filtered set is nonempty. -/
theorem C4_empty_filter_failure (g : List (List ℚ)) (lo hi s : ℚ) :
    (valid_data g lo hi s = [] → average g lo hi s = none) ∧
    (valid_data g lo hi s ≠ [] → ∃ q, average g lo hi s = some q) := by
  constructor
  · intro h
    unfold average
    rw [if_pos (by rw [h]; rfl)]
  · intro h
    unfold average
    rw [if_neg (fun h0 => h (List.length_eq_zero.mp h0))]
    exact ⟨_, rfl⟩

/-- Claim C4, witness: a concrete grid whose only element lies below the
valid range, so the filter is empty and the mean is the propagated
failure. -/
theorem C4_empty_filter_failure_witness :
    valid_data [[5]] 10 20 1 = [] ∧ average [[5]] 10 20 1 = none :=
  ⟨by decide, (C4_empty_filter_failure [[5]] 10 20 1).1 (by decide)⟩

/-- Claim C9: the in-place sequential classification of lines 132-139,
applying the six threshold assignments in order on the whole array and then
setting negative cells to NaN, equals the pure per-element bucketing
function applied to every cell of the original array: no cell written by an
earlier rule satisfies the condition of any later rule. -/
theorem C9_sequential_eq_elementwise (g : List (List ℚ)) :
    classifyGridSeq g = g.map (fun row => row.map classifyPure) :=
  classifyGridSeq_eq_pure g

/-- Claim C5, counterexample to the claim as stated: the filename
MOD04_3K_L2.hdf contains the substring L2, yet it does not resolve to
AOD_550_Dark_Target_Deep_Blue_Combined, because the 3K branch is tested
first and wins. -/
theorem C5_l2_resolution_false :
    hasSubstr ("L2".toList) ("MOD04_3K_L2.hdf".toList) = true ∧
    resolveSDS ("MOD04_3K_L2.hdf".toList) ≠
      some ("AOD_550_Dark_Target_Deep_Blue_Combined") := by
  constructor
  · decide
  · decide

/-- Claim C5 (amended): a filename containing 3K resolves to
Optical_Depth_Land_And_Ocean; a filename containing L2 but not 3K resolves
to AOD_550_Dark_Target_Deep_Blue_Combined (3K takes precedence when both
occur); a filename containing neither is skipped; the spec example
filenames resolve as stated; if neither the resolved name nor the fallback
name exists in the opened file, selection yields none and the loop iteration
ends in a per-file skip, with every later file still processed. -/
theorem C5_sds_resolution_and_skip :
    (∀ f : List Char, hasSubstr ("3K".toList) f = true →
      resolveSDS f = some ("Optical_Depth_Land_And_Ocean")) ∧
    (∀ f : List Char, hasSubstr ("3K".toList) f = false →
      hasSubstr ("L2".toList) f = true →
      resolveSDS f = some ("AOD_550_Dark_Target_Deep_Blue_Combined")) ∧
    (∀ f : List Char, hasSubstr ("3K".toList) f = false →
      hasSubstr ("L2".toList) f = false → resolveSDS f = none) ∧
    resolveSDS ("MOD04_3K.A2020001.hdf".toList) = some ("Optical_Depth_Land_And_Ocean") ∧
    resolveSDS ("MYD04_L2.A2020001.hdf".toList) =
      some ("AOD_550_Dark_Target_Deep_Blue_Combined") ∧
    resolveSDS ("other.hdf".toList) = none ∧
    (∀ (avail : List String) (sds : String), sds ∉ avail →
      ("Optical_Depth_Land_And_Ocean" : String) ∉ avail → selectSDS avail sds = none) ∧
    (∀ (f : FileEntry) (fs : List FileEntry) (sds : String),
      processDecision f.processResp = true → resolveSDS f.name = some sds →
      f.openable = true → selectSDS f.sdsAvailable sds = none →
      run (some (f :: fs)) = RunResult.done (Outcome.noSDS :: fs.map processOne)) := by
  refine ⟨fun f h => ?_, fun f h1 h2 => ?_, fun f h1 h2 => ?_, by decide, by decide, by decide,
    fun avail sds h1 h2 => ?_, fun f fs sds hp hr ho hs => ?_⟩
  · unfold resolveSDS
    rw [if_pos h]
  · unfold resolveSDS
    rw [if_neg (fun hc => by rw [hc] at h1; exact Bool.noConfusion h1), if_pos h2]
  · unfold resolveSDS
    rw [if_neg (fun hc => by rw [hc] at h1; exact Bool.noConfusion h1),
      if_neg (fun hc => by rw [hc] at h2; exact Bool.noConfusion h2)]
  · simp [selectSDS, h1, h2]
  · simp [run, processOne, hp, hr, ho, hs]

/-- Claim C5, witness: the fallback-then-skip conjunct applied to a concrete
file whose SDS list contains neither the resolved nor the fallback name. -/
theorem C5_sds_resolution_and_skip_witness :
    (("X" : String) ∉ (["Latitude"] : List String)) ∧
    selectSDS ["Latitude"] ("X") = none :=
  ⟨by decide,
    C5_sds_resolution_and_skip.2.2.2.2.2.2.1 ["Latitude"] ("X") (by decide) (by decide)⟩

/-- Claim C6: when the user declines the coefficients prompt the defaults
slope 29.4 and intercept 8.8 are used; a raw value 1000 with scale factor
0.001 passes a valid range of -100..5000 and scales to AOD 1, and the
defaults turn it into PM2.5 = 38.2, which the classifier puts in category
2. -/
theorem C6_default_coefficients :
    (∀ (r : String) (us ui : ℚ), r ≠ "Y" → r ≠ "y" →
      slopeIntercept r us ui = (29.4, 8.8)) ∧
    valid_data [[(1000 : ℚ)]] (-100) 5000 0.001 = [1] ∧
    pm25 [[(1000 : ℚ)]] 0.001 29.4 8.8 = [[38.2]] ∧
    (29.4 : ℚ) * 1 + 8.8 = 38.2 ∧
    classifySeqCell 38.2 = some 2 := by
  refine ⟨fun r us ui h1 h2 => ?_, ?_, ?_, by norm_num, ?_⟩
  · simp [slopeIntercept, useCustomCoeffs, h1, h2]
  · norm_num [valid_data, ravel, List.filter]
  · norm_num [pm25]
  · norm_num [classifySeqCell, step1, step2, step3, step4, step5, step6, step7]

/-- Claim C6, witness: the default-coefficients conjunct applied at the
concrete declining response N. -/
theorem C6_default_coefficients_witness :
    slopeIntercept ("N") 1 2 = (29.4, 8.8) :=
  C6_default_coefficients.1 ("N") 1 2 (by decide) (by decide)

/-- Claim C7, counterexample to the claim as stated: with the MODIS AOD
valid range -100..5000, scale factor 0.001 and the default coefficients, a
cell with raw value 6000 is outside the valid range, yet its category cell
is the defined value 4, not NaN: the classifier masks only negative PM2.5
values and never consults the valid range. -/
theorem C7_out_of_range_not_masked :
    ((6000 : ℚ) < -100 ∨ (5000 : ℚ) < 6000) ∧
    categoryGrid [[6000]] 0.001 29.4 8.8 = [[some 4]] := by
  constructor
  · norm_num
  · norm_num [categoryGrid, classifyGridSeq, applyAll, pm25, step1, step2, step3, step4,
      step5, step6, step7]

/-- Claim C7 (amended): a cell of the derived category grid is NaN-masked
exactly when its PM2.5 value slope * (raw * scale_factor) + intercept is
negative; the valid range of the raw data is not consulted, so out-of-range
raw cells whose PM2.5 value is nonnegative stay defined. -/
theorem C7_mask_iff_negative_pm25 (data : List (List ℚ)) (s sl it : ℚ) :
    ∀ (i j : ℕ) (row : List ℚ) (v : ℚ), data[i]? = some row → row[j]? = some v →
      ∃ (crow : List (Option ℚ)) (c : Option ℚ),
        (categoryGrid data s sl it)[i]? = some crow ∧ crow[j]? = some c ∧
        (c = none ↔ sl * (v * s) + it < 0) := by
  intro i j row v h1 h2
  have hc : categoryGrid data s sl it =
      (data.map (fun row => row.map (fun v => sl * (v * s) + it))).map
        (fun row => row.map classifyPure) := by
    unfold categoryGrid pm25
    rw [classifyGridSeq_eq_pure]
  refine ⟨(row.map (fun v => sl * (v * s) + it)).map classifyPure,
    classifyPure (sl * (v * s) + it), ?_, ?_, classifyPure_none_iff _⟩
  · rw [hc]
    simp [List.getElem?_map, h1]
  · simp [List.getElem?_map, h2]

/-- Claim C7, witness: the masking theorem applied at a concrete grid whose
single cell has negative PM2.5, hence is masked. -/
theorem C7_mask_iff_negative_pm25_witness :
    ∃ (crow : List (Option ℚ)) (c : Option ℚ),
      (categoryGrid [[(-1000 : ℚ)]] 0.001 29.4 8.8)[0]? = some crow ∧
      crow[0]? = some c ∧
      (c = none ↔ (29.4 : ℚ) * ((-1000) * 0.001) + 8.8 < 0) :=
  C7_mask_iff_negative_pm25 [[(-1000 : ℚ)]] 0.001 29.4 8.8 0 0 [(-1000)] (-1000) rfl rfl

/-- Claim C8: an absent fileList.txt aborts the whole run (fatal), while a
present list is processed file by file; a listed path that cannot be opened
is only discovered at the downstream open attempt, which fails per-file and
leaves every later file processed. -/
theorem C8_missing_filelist_fatal :
    run none = RunResult.fatal ∧
    (∀ fs : List FileEntry, run (some fs) = RunResult.done (fs.map processOne)) ∧
    (∀ (f : FileEntry) (fs : List FileEntry) (sds : String),
      processDecision f.processResp = true → resolveSDS f.name = some sds →
      f.openable = false →
      run (some (f :: fs)) = RunResult.done (Outcome.openFailed :: fs.map processOne)) := by
  refine ⟨rfl, fun fs => rfl, fun f fs sds hp hr ho => ?_⟩
  simp [run, processOne, hp, hr, ho]

/-- Claim C8, witness: the per-file deferred-failure conjunct applied to a
concrete unopenable file. -/
theorem C8_missing_filelist_fatal_witness :
    run (some [⟨("MOD04_3K.hdf".toList), "Y", false, []⟩]) =
      RunResult.done [Outcome.openFailed] := by
  have h := C8_missing_filelist_fatal.2.2 ⟨("MOD04_3K.hdf".toList), "Y", false, []⟩ []
    ("Optical_Depth_Land_And_Ocean") (by decide) (by decide) rfl
  simpa using h

/-- Claim C10: the process prompt defaults to yes (every response other than
exactly N or n processes the file), while the coefficients, show-map and
save-map prompts default to no (every response other than exactly Y or y is
a refusal). -/
theorem C10_prompt_default_asymmetry (r : String) :
    (r ≠ "N" → r ≠ "n" → processDecision r = true) ∧
    processDecision ("N") = false ∧ processDecision ("n") = false ∧
    (r ≠ "Y" → r ≠ "y" →
      useCustomCoeffs r = false ∧ showMapDecision r = false ∧ saveMapDecision r = false) ∧
    useCustomCoeffs ("Y") = true ∧ useCustomCoeffs ("y") = true ∧
    showMapDecision ("Y") = true ∧ showMapDecision ("y") = true ∧
    saveMapDecision ("Y") = true ∧ saveMapDecision ("y") = true := by
  refine ⟨fun h1 h2 => ?_, by decide, by decide, fun h1 h2 => ?_, by decide, by decide,
    by decide, by decide, by decide, by decide⟩
  · simp [processDecision, h1, h2]
  · exact ⟨by simp [useCustomCoeffs, h1, h2], by simp [showMapDecision, h1, h2],
      by simp [saveMapDecision, h1, h2]⟩

/-- Claim C10, witness: the asymmetry theorem applied at the concrete
response q, which is neither N, n, Y nor y: the file is processed, the
refusal-default prompts refuse. -/
theorem C10_prompt_default_asymmetry_witness :
    processDecision ("q") = true ∧ useCustomCoeffs ("q") = false :=
  ⟨(C10_prompt_default_asymmetry ("q")).1 (by decide) (by decide),
    ((C10_prompt_default_asymmetry ("q")).2.2.2.1 (by decide) (by decide)).1⟩

end ModisAerosols
